import Mathlib

/-!
Verification of the Slackr2 real-time room gateway (`MessageGateway` in the
NestJS backend). The gateway keeps an in-memory map `roomMembers` from room id
to the set of user ids currently in the room, attaches an authenticated user id
to each socket at handshake time, and fans events out over socket.io channels
named `room:<roomId>` and `user:<userId>`.

The embedding below models:
  - JS `Map<string, _>` as an association list with unique keys (`mapGet`,
    `mapHas`, `mapSet`), and JS `Set<string>` as a duplicate-free list
    (`setAdd` appends only when absent, `setDelete` removes the element);
  - socket.io channels as an inductive `Channel` (the `room:`/`user:` string
    prefixes in the source make the two name spaces disjoint, which the two
    constructors capture);
  - the world visible to the gateway as `World`: the `roomMembers` map, each
    set of joined channels of each socket, and the attached `client.data`
    user id;
  - every `emit` performed by a handler as an `Emit` trace entry, either to a
    single socket (`client.emit`) or to a channel (`server.to(...).emit`);
  - the `MessageService` persistence collaborator as an oracle of fallible
    functions (`Except String _`), since its implementation is external to the
    gateway;
  - the outcome of each handler as `HResult`: a structured ack (`success`/
    `failure`, as returned by the handlers that have a try/catch), `unit` for
    handlers that return nothing, and `thrown` when an exception escapes the
    handler body (the handler has no local catch at that point).
-/

namespace Slackr

abbrev UserId := String
abbrev RoomId := String
abbrev ConnId := String

/-- Socket.io channel names: the source uses the strings `room:<roomId>` and
`user:<userId>`; the disjoint prefixes are modelled by the two constructors. -/
inductive Channel
  | room (roomId : RoomId)
  | user (userId : UserId)
deriving DecidableEq, Repr

/-- A durable message as returned by the persistence collaborator (with the
author relation already included, as the gateway relies on). -/
structure Message where
  id : String
  roomId : RoomId
  userId : UserId
  content : String
deriving DecidableEq, Repr

/-- Payload of the `sendMessage` command. -/
structure CreateMessageDto where
  roomId : RoomId
  content : String
deriving DecidableEq, Repr

/-- Event payloads emitted by the gateway. -/
inductive Payload
  | members (l : List UserId)
  | userRoom (userId : UserId) (roomId : RoomId)
  | history (l : List Message)
  | msg (m : Message)
  | deleted (id : String) (roomId : RoomId)
deriving DecidableEq, Repr

/-- One emission: `client.emit(event, payload)` targets a single socket,
`server.to(channel).emit(event, payload)` targets every socket currently
subscribed to the channel. -/
inductive Emit
  | toClient (conn : ConnId) (event : String) (payload : Payload)
  | toChannel (channel : Channel) (event : String) (payload : Payload)
deriving DecidableEq, Repr

/-- JS `Map.get`: value of the first (unique) entry with the given key. -/
def mapGet {β : Type} (m : List (String × β)) (k : String) : Option β :=
  match m with
  | [] => none
  | (k', v) :: rest => if k' = k then some v else mapGet rest k

/-- JS `Map.has`. -/
def mapHas {β : Type} (m : List (String × β)) (k : String) : Bool :=
  (mapGet m k).isSome

/-- JS `Map.set`: replace the entry in place if the key exists, else append. -/
def mapSet {β : Type} (m : List (String × β)) (k : String) (v : β) :
    List (String × β) :=
  match m with
  | [] => [(k, v)]
  | (k', v') :: rest =>
    if k' = k then (k', v) :: rest else (k', v') :: mapSet rest k v

/-- JS `Set.add` on a duplicate-free list: append only when absent (JS sets
iterate in insertion order). -/
def setAdd {α : Type} [DecidableEq α] (s : List α) (x : α) : List α :=
  if x ∈ s then s else s ++ [x]

/-- JS `Set.delete`: the element is no longer in the set afterwards (a JS set
never holds duplicates, so removing every list occurrence is exact). -/
def setDelete {α : Type} [DecidableEq α] (s : List α) (x : α) : List α :=
  s.filter (fun y => y ≠ x)

/-- The state the gateway can observe and mutate: its `roomMembers` map, each
joined channels of each socket (the socket.io room bookkeeping), and the
`client.data.user.sub` of each socket attached at handshake. -/
structure World where
  roomMembers : List (RoomId × List UserId)
  channels : List (ConnId × List Channel)
  clientData : List (ConnId × UserId)
deriving DecidableEq, Repr

/-- Channels a socket is currently subscribed to. -/
def connChannels (w : World) (c : ConnId) : List Channel :=
  (mapGet w.channels c).getD []

/-- Sockets that receive a `server.to(ch).emit`: exactly those whose channel
set contains `ch` at the moment of emission. -/
def recipientsOf (w : World) (ch : Channel) : List ConnId :=
  (w.channels.filter (fun p => ch ∈ p.2)).map Prod.fst

/-- Models `client.join(ch)` (idempotent, like in socket.io). -/
def clientJoin (w : World) (c : ConnId) (ch : Channel) : World :=
  { w with channels := mapSet w.channels c (setAdd (connChannels w c) ch) }

/-- Models `client.leave(ch)`. -/
def clientLeave (w : World) (c : ConnId) (ch : Channel) : World :=
  { w with channels := mapSet w.channels c (setDelete (connChannels w c) ch) }

/-- The persistence collaborator (`MessageService`), external to the gateway:
each operation either returns a value or throws, modelled as `Except`. -/
structure MessageService where
  create : UserId → CreateMessageDto → Except String Message
  findAllByRoom : RoomId → UserId → Except String (List Message)
  update : String → UserId → String → Except String Message
  findOne : String → UserId → Except String Message
  remove : String → UserId → Except String Unit

/-- Outcome of one handler invocation: a structured ack (`success`/`failure`,
produced by the handlers whose body is wrapped in try/catch), `unit` for
handlers that return nothing, or `thrown` when an exception escapes the
handler because no local catch surrounds the failing statement. -/
inductive HResult
  | success (msg : Option Message) (members : Option (List UserId))
  | failure (error : String)
  | unit
  | thrown (e : String)
deriving DecidableEq, Repr

/-- Handler `handleJoinRoom` (gateway source): joins the socket to the `room:` channel,
reads the user id from `client.data`, lazily creates the member set of the
room and adds the user, fetches the message history of the room, then emits `messageHistory`
to the joining socket only, and `roomMembers` followed by `userJoined` to the
room channel. There is no try/catch: a persistence failure escapes after the
membership mutation and before any emission. -/
def handleJoinRoom (svc : MessageService) (w : World) (client : ConnId)
    (roomId : RoomId) : World × List Emit × HResult :=
  let w1 := clientJoin w client (Channel.room roomId)
  match mapGet w1.clientData client with
  | none => (w1, [], HResult.thrown "TypeError")
  | some userId =>
    let rm0 := if mapHas w1.roomMembers roomId then w1.roomMembers
               else mapSet w1.roomMembers roomId []
    let rm1 := mapSet rm0 roomId (setAdd ((mapGet rm0 roomId).getD []) userId)
    let w2 := { w1 with roomMembers := rm1 }
    match svc.findAllByRoom roomId userId with
    | Except.error e => (w2, [], HResult.thrown e)
    | Except.ok messages =>
      let currentMembers := (mapGet w2.roomMembers roomId).getD []
      (w2,
        [ Emit.toClient client "messageHistory" (Payload.history messages),
          Emit.toChannel (Channel.room roomId) "roomMembers"
            (Payload.members currentMembers),
          Emit.toChannel (Channel.room roomId) "userJoined"
            (Payload.userRoom userId roomId) ],
        HResult.unit)

/-- Handler `handleLeaveRoom` (gateway source): the socket leaves the `room:` channel
first, then the user id is removed from the member set when the map has an
entry for the room (followed by a `roomMembers` emission to the channel), and
`userLeft` is emitted to the room channel unconditionally. -/
def handleLeaveRoom (w : World) (client : ConnId) (roomId : RoomId) :
    World × List Emit × HResult :=
  let w1 := clientLeave w client (Channel.room roomId)
  match mapGet w1.clientData client with
  | none => (w1, [], HResult.thrown "TypeError")
  | some userId =>
    if mapHas w1.roomMembers roomId then
      let newSet := setDelete ((mapGet w1.roomMembers roomId).getD []) userId
      let w2 := { w1 with roomMembers := mapSet w1.roomMembers roomId newSet }
      let currentMembers := (mapGet w2.roomMembers roomId).getD []
      (w2,
        [ Emit.toChannel (Channel.room roomId) "roomMembers"
            (Payload.members currentMembers),
          Emit.toChannel (Channel.room roomId) "userLeft"
            (Payload.userRoom userId roomId) ],
        HResult.unit)
    else
      (w1,
        [ Emit.toChannel (Channel.room roomId) "userLeft"
            (Payload.userRoom userId roomId) ],
        HResult.unit)

/-- Handler `handleSendMessage` (gateway source): inside try/catch, reads the user id,
delegates to `messageService.create`, and on success broadcasts `newMessage`
to the room channel and returns a success ack; any failure is caught and
returned as a failure ack with no emission. -/
def handleSendMessage (svc : MessageService) (w : World) (client : ConnId)
    (dto : CreateMessageDto) : World × List Emit × HResult :=
  match mapGet w.clientData client with
  | none => (w, [], HResult.failure "TypeError")
  | some userId =>
    match svc.create userId dto with
    | Except.error e => (w, [], HResult.failure e)
    | Except.ok message =>
      (w,
        [ Emit.toChannel (Channel.room dto.roomId) "newMessage"
            (Payload.msg message) ],
        HResult.success (some message) none)

/-- Handler `handleUpdateMessage` (gateway source): inside try/catch, delegates to
`messageService.update` and on success broadcasts `messageUpdated` to the
room channel of the updated message; failures become a failure ack. -/
def handleUpdateMessage (svc : MessageService) (w : World) (client : ConnId)
    (id content : String) : World × List Emit × HResult :=
  match mapGet w.clientData client with
  | none => (w, [], HResult.failure "TypeError")
  | some userId =>
    match svc.update id userId content with
    | Except.error e => (w, [], HResult.failure e)
    | Except.ok updated =>
      (w,
        [ Emit.toChannel (Channel.room updated.roomId) "messageUpdated"
            (Payload.msg updated) ],
        HResult.success (some updated) none)

/-- Handler `handleDeleteMessage` (gateway source): inside try/catch, fetches the
message to learn its room, deletes it, then broadcasts `messageDeleted` with
only the id and room id; failures become a failure ack. -/
def handleDeleteMessage (svc : MessageService) (w : World) (client : ConnId)
    (messageId : String) : World × List Emit × HResult :=
  match mapGet w.clientData client with
  | none => (w, [], HResult.failure "TypeError")
  | some userId =>
    match svc.findOne messageId userId with
    | Except.error e => (w, [], HResult.failure e)
    | Except.ok message =>
      match svc.remove messageId userId with
      | Except.error e => (w, [], HResult.failure e)
      | Except.ok _ =>
        (w,
          [ Emit.toChannel (Channel.room message.roomId) "messageDeleted"
              (Payload.deleted messageId message.roomId) ],
          HResult.success none none)

/-- Handler `handleGetRoomMembers` (gateway source): reads the current member list
(empty when the map has no entry), emits it to the requesting socket only,
and returns a success ack with the list. -/
def handleGetRoomMembers (w : World) (client : ConnId) (roomId : RoomId) :
    World × List Emit × HResult :=
  let members := if mapHas w.roomMembers roomId
                 then (mapGet w.roomMembers roomId).getD [] else []
  (w,
    [ Emit.toClient client "roomMembers" (Payload.members members) ],
    HResult.success none (some members))

/-- Disconnect cleanup loop (`this.roomMembers.forEach` in `handleDisconnect`):
for every room whose member set contains the user id, the user is deleted and
a `roomMembers` emission (the set after deletion) followed by `userLeft` is
sent to the channel of that room. -/
def disconnectCleanup (rooms : List (RoomId × List UserId)) (userId : UserId) :
    List (RoomId × List UserId) × List Emit :=
  match rooms with
  | [] => ([], [])
  | (roomId, members) :: rest =>
    if userId ∈ members then
      let members' := setDelete members userId
      let tail := disconnectCleanup rest userId
      ((roomId, members') :: tail.1,
        Emit.toChannel (Channel.room roomId) "roomMembers"
          (Payload.members members') ::
        Emit.toChannel (Channel.room roomId) "userLeft"
          (Payload.userRoom userId roomId) :: tail.2)
    else
      let tail := disconnectCleanup rest userId
      ((roomId, members) :: tail.1, tail.2)

/-- Handler `handleDisconnect` (gateway source): by the time the disconnect event
fires the socket has left all its channels and is being destroyed, so its
channel and data entries are dropped; the user id (read with optional
chaining, hence no throw) drives the cleanup loop when present. -/
def handleDisconnect (w : World) (client : ConnId) : World × List Emit :=
  let userId? := mapGet w.clientData client
  let w1 : World :=
    { roomMembers := w.roomMembers
      channels := w.channels.filter (fun p => p.1 ≠ client)
      clientData := w.clientData.filter (fun p => p.1 ≠ client) }
  match userId? with
  | none => (w1, [])
  | some userId =>
    let cleaned := disconnectCleanup w1.roomMembers userId
    ({ w1 with roomMembers := cleaned.1 }, cleaned.2)

/-- Socket teardown used by the rejection paths of `handleConnection`
(`client.disconnect()`): the socket is gone from the registry. -/
def disconnectSocket (w : World) (c : ConnId) : World :=
  { roomMembers := w.roomMembers
    channels := w.channels.filter (fun p => p.1 ≠ c)
    clientData := w.clientData.filter (fun p => p.1 ≠ c) }

/-- Handler `handleConnection` (gateway source): reads the token from the handshake
(`if (!token)` also rejects the empty string, which is falsy in JS),
verifies it with the JWT service (modelled as an oracle), attaches
the user payload to `client.data` on success and joins the per-user channel;
on a missing token or a verification failure the socket is disconnected and
never admitted. Returns the world and whether the socket stayed connected. -/
def handleConnection (verify : String → Except String UserId) (w : World)
    (client : ConnId) (token : Option String) : World × Bool :=
  match token with
  | none => (disconnectSocket w client, false)
  | some t =>
    if t = "" then (disconnectSocket w client, false)
    else
      match verify t with
      | Except.error _ => (disconnectSocket w client, false)
      | Except.ok sub =>
        let w1 := { w with clientData := mapSet w.clientData client sub }
        (clientJoin w1 client (Channel.user sub), true)

/-- Filter of a trace keeping only the emissions addressed to the channel of
a given room. -/
def isToRoom (r : RoomId) : Emit → Bool
  | Emit.toChannel (Channel.room r') _ _ => decide (r' = r)
  | _ => false

/-- Emissions of a trace addressed to the channel of the given room. -/
def toRoomEmits (trace : List Emit) (r : RoomId) : List Emit :=
  trace.filter (isToRoom r)

/-- Recognizes a channel broadcast of the `roomMembers` event. -/
def isRoomMembersBroadcast : Emit → Bool
  | Emit.toChannel _ ev _ => decide (ev = "roomMembers")
  | _ => false

/-- Recognizes a channel broadcast of the `userJoined` event. -/
def isUserJoinedBroadcast : Emit → Bool
  | Emit.toChannel _ ev _ => decide (ev = "userJoined")
  | _ => false

/-- Persistence oracle whose operations succeed: `create` returns the durable
message with the author relation filled in, `findAllByRoom` returns an empty
page. -/
def svcList : MessageService :=
  { create := fun u dto => Except.ok ⟨"m1", dto.roomId, u, dto.content⟩
    findAllByRoom := fun _ _ => Except.ok []
    update := fun i u c => Except.ok ⟨i, "R", u, c⟩
    findOne := fun i u => Except.ok ⟨i, "R", u, "hi"⟩
    remove := fun _ _ => Except.ok () }

/-- Persistence oracle whose every operation throws. -/
def svcFail : MessageService :=
  { create := fun _ _ => Except.error "db down"
    findAllByRoom := fun _ _ => Except.error "db down"
    update := fun _ _ _ => Except.error "db down"
    findOne := fun _ _ => Except.error "db down"
    remove := fun _ _ => Except.error "db down" }

/-- Two sockets `c1`, `c2` of the same user `u`, authenticated, no joins yet. -/
def twoConnWorld : World := ⟨[], [], [("c1", "u"), ("c2", "u")]⟩

/-- User `u` joins room `R` on both of their connections, then leaves on the
first connection only; the second connection still holds its join. -/
def C1state : World :=
  (handleLeaveRoom
    (handleJoinRoom svcList (handleJoinRoom svcList twoConnWorld "c1" "R").1
      "c2" "R").1
    "c1" "R").1

/-- Two sockets of the same user `u`, authenticated, no joins yet. -/
def C2start : World := ⟨[], [], [("c1", "u"), ("c2", "u")]⟩

/-- User `u` joins room `A` on connection `c1` and room `B` on connection
`c2`: `c1` is joined to `A` only. -/
def C2state : World :=
  (handleJoinRoom svcList (handleJoinRoom svcList C2start "c1" "A").1
    "c2" "B").1

/-- One authenticated socket, no joins. -/
def C3w : World := ⟨[], [], [("c1", "u")]⟩

/-- One authenticated socket that has joined no room at all. -/
def C4w : World := ⟨[], [], [("c1", "u")]⟩

/-- One authenticated socket, no joins. -/
def C5w : World := ⟨[], [], [("c1", "u")]⟩

/-- State after user `u` joins room `R` once on connection `c1`. -/
def C5s1 : World := (handleJoinRoom svcList C5w "c1" "R").1

/-- One authenticated socket, no joins. -/
def C6w : World := ⟨[], [], [("c1", "u")]⟩

/-- Emission trace of a first, successful `joinRoom` for room `R`. -/
def C6trace : List Emit := (handleJoinRoom svcList C6w "c1" "R").2.1

/-- Users `u1` (socket `c1`) and `u2` (socket `c2`) both joined to room `R`. -/
def C7w : World :=
  ⟨[("R", ["u1", "u2"])],
   [("c1", [Channel.room "R"]), ("c2", [Channel.room "R"])],
   [("c1", "u1"), ("c2", "u2")]⟩

/-- A JWT verification oracle accepting exactly the token `"tok"`. -/
def verifyDemo : String → Except String UserId :=
  fun t => if t = "tok" then Except.ok "u" else Except.error "Unauthenticated"

/-- Empty world for connection handshakes. -/
def C8w : World := ⟨[], [], []⟩

/-- One authenticated socket; the member map has no entry for any room. -/
def C9w : World := ⟨[], [], [("c1", "u")]⟩

/-- One authenticated socket joined to `R` alongside user `v`. -/
def C9joined : World :=
  ⟨[("R", ["u", "v"])], [("c1", [Channel.room "R"])], [("c1", "u")]⟩

/-- One authenticated socket, no joins. -/
def C10w : World := ⟨[], [], [("c1", "u")]⟩

/-- Reading back a key just written returns the written value. -/
theorem mapGet_mapSet_self {β : Type} (m : List (String × β)) (k : String)
    (v : β) : mapGet (mapSet m k v) k = some v := by
  induction m with
  | nil => simp [mapSet, mapGet]
  | cons p rest ih =>
    obtain ⟨k', v'⟩ := p
    by_cases h : k' = k
    · simp [mapSet, mapGet, h]
    · simp [mapSet, mapGet, h, ih]

/-- Writing back the current value of a key leaves the map unchanged. -/
theorem mapSet_eq_self {β : Type} (m : List (String × β)) (k : String) (v : β)
    (h : mapGet m k = some v) : mapSet m k v = m := by
  induction m with
  | nil => simp [mapGet] at h
  | cons p rest ih =>
    obtain ⟨k', v'⟩ := p
    by_cases hk : k' = k
    · subst hk
      simp [mapGet] at h
      simp [mapSet, h]
    · simp [mapGet, hk] at h
      simp [mapSet, hk, ih h]

/-- A key outside the key list reads as absent. -/
theorem mapGet_eq_none_of_not_mem {β : Type} (m : List (String × β))
    (k : String) (h : k ∉ m.map Prod.fst) : mapGet m k = none := by
  induction m with
  | nil => simp [mapGet]
  | cons p rest ih =>
    obtain ⟨k', v'⟩ := p
    by_cases hkk : k' = k
    · exact absurd (by simp [hkk]) h
    · have h2 : k ∉ rest.map Prod.fst := fun hm => h (by simp [hm])
      simp [mapGet, hkk, ih h2]

/-- Dropping every entry of a key makes that key read as absent. -/
theorem mapGet_filter_self {β : Type} (m : List (String × β)) (c : String) :
    mapGet (m.filter (fun p => p.1 ≠ c)) c = none := by
  induction m with
  | nil => simp [mapGet]
  | cons p rest ih =>
    obtain ⟨k', v'⟩ := p
    by_cases h : k' = c
    · rw [show ((k', v') :: rest).filter (fun p => p.1 ≠ c) =
          rest.filter (fun p => p.1 ≠ c) by simp [List.filter_cons, h]]
      exact ih
    · rw [show ((k', v') :: rest).filter (fun p => p.1 ≠ c) =
          (k', v') :: rest.filter (fun p => p.1 ≠ c) by
            simp [List.filter_cons, h]]
      rw [show mapGet ((k', v') :: rest.filter (fun p => p.1 ≠ c)) c =
          mapGet (rest.filter (fun p => p.1 ≠ c)) c by simp [mapGet, h]]
      exact ih

/-- An entry of a map after `mapSet` (keys unique) is the written pair or an
untouched entry with a different key. -/
theorem mem_mapSet {β : Type} (m : List (String × β)) (k : String) (v : β)
    (p : String × β) (hk : (m.map Prod.fst).Nodup) (hp : p ∈ mapSet m k v) :
    p = (k, v) ∨ (p ∈ m ∧ p.1 ≠ k) := by
  induction m with
  | nil =>
    simp [mapSet] at hp
    exact Or.inl hp
  | cons q rest ih =>
    obtain ⟨k', v'⟩ := q
    simp at hk
    by_cases h : k' = k
    · subst h
      simp [mapSet] at hp
      rcases hp with h1 | h2
      · exact Or.inl (by simp [h1])
      · refine Or.inr ⟨List.mem_cons_of_mem _ h2, fun hpk => ?_⟩
        exact hk.1 p.2 (by simpa [← hpk] using h2)
    · simp [mapSet, h] at hp
      rcases hp with h1 | h2
      · exact Or.inr ⟨by simp [h1], by simp [h1, h]⟩
      · rcases ih hk.2 h2 with h3 | h3
        · exact Or.inl h3
        · exact Or.inr ⟨List.mem_cons_of_mem _ h3.1, h3.2⟩

/-- Operation `Set.add` puts the element in the set. -/
theorem mem_setAdd_self {α : Type} [DecidableEq α] (s : List α) (x : α) :
    x ∈ setAdd s x := by
  unfold setAdd
  by_cases h : x ∈ s <;> simp [h]

/-- Operation `Set.add` of an element already present is a no-op. -/
theorem setAdd_of_mem {α : Type} [DecidableEq α] {s : List α} {x : α}
    (h : x ∈ s) : setAdd s x = s := by
  simp [setAdd, h]

/-- Operation `Set.delete` leaves the element out of the set. -/
theorem not_mem_setDelete_self {α : Type} [DecidableEq α] (s : List α)
    (x : α) : x ∉ setDelete s x := by
  simp [setDelete]

/-- C1: the claim is false on the code. User `u` joins room `R` on both of
their connections `c1` and `c2`, then leaves on `c1` only: the member set of
`R` no longer contains `u`, although `c2` still holds a join (it is still
subscribed to the room channel). -/
theorem C1_counterexample :
    "u" ∉ (mapGet C1state.roomMembers "R").getD [] ∧
    Channel.room "R" ∈ connChannels C1state "c2" := by decide

/-- C1 (amended): `handleLeaveRoom` removes the user id from the member set of the
room unconditionally — membership is tracked per user, not per connection, so
the removal happens even while another connection of the same user remains
joined to the channel of the room. -/
theorem C1_leave_removes_user_unconditionally (w : World) (c : ConnId)
    (r : RoomId) (u : UserId) (hd : mapGet w.clientData c = some u) :
    u ∉ (mapGet (handleLeaveRoom w c r).1.roomMembers r).getD [] := by
  by_cases hH : mapHas w.roomMembers r
  · simp [handleLeaveRoom, clientLeave, hd, hH, mapGet_mapSet_self,
      not_mem_setDelete_self, setDelete]
  · have hnone : mapGet w.roomMembers r = none := by
      cases h2 : mapGet w.roomMembers r with
      | none => rfl
      | some v => exact absurd (by simp [mapHas, h2]) hH
    simp [handleLeaveRoom, clientLeave, hd, hH, hnone]

/-- C1 (witness): concrete run of the amended theorem. -/
theorem C1_witness :
    "u" ∉ (mapGet (handleLeaveRoom
      ⟨[("R", ["u"])], [], [("c1", "u")]⟩ "c1" "R").1.roomMembers "R").getD [] :=
  C1_leave_removes_user_unconditionally
    ⟨[("R", ["u"])], [], [("c1", "u")]⟩ "c1" "R" "u" (by decide)

/-- C9: `handleLeaveRoom` on a room the connection never joined does not fail:
it returns normally, always emits `userLeft` with the user id and room id to the
channel of the room, and emits the `roomMembers` snapshot only when the member map has an
entry for that room. -/
theorem C9_leave_unjoined_room (w : World) (c : ConnId) (r : RoomId)
    (u : UserId) (hd : mapGet w.clientData c = some u) :
    (mapHas w.roomMembers r = false →
      (handleLeaveRoom w c r).2.1 =
        [Emit.toChannel (Channel.room r) "userLeft" (Payload.userRoom u r)] ∧
      (handleLeaveRoom w c r).2.2 = HResult.unit) ∧
    (mapHas w.roomMembers r = true →
      (handleLeaveRoom w c r).2.1 =
        [ Emit.toChannel (Channel.room r) "roomMembers"
            (Payload.members (setDelete ((mapGet w.roomMembers r).getD []) u)),
          Emit.toChannel (Channel.room r) "userLeft"
            (Payload.userRoom u r) ] ∧
      (handleLeaveRoom w c r).2.2 = HResult.unit) := by
  constructor
  · intro hH
    simp [handleLeaveRoom, clientLeave, hd, hH]
  · intro hH
    simp [handleLeaveRoom, clientLeave, hd, hH, mapGet_mapSet_self]

/-- C9 (witness): leaving a room with no membership entry at all still emits
one `userLeft` and returns normally. -/
theorem C9_witness :
    (handleLeaveRoom C9w "c1" "Z").2.1 =
      [Emit.toChannel (Channel.room "Z") "userLeft"
        (Payload.userRoom "u" "Z")] ∧
    (handleLeaveRoom C9w "c1" "Z").2.2 = HResult.unit :=
  (C9_leave_unjoined_room C9w "c1" "Z" "u" (by decide)).1 (by decide)

/-- C10: `handleJoinRoom` adds the user to the member set of the room (creating the
entry lazily) before calling the persistence collaborator; when the history
fetch fails, the mutation is not rolled back — the user stays in the member
set, no event is emitted, and the error escapes the handler. -/
theorem C10_join_mutation_survives_fetch_failure (svc : MessageService)
    (w : World) (c : ConnId) (r : RoomId) (u : UserId) (e : String)
    (hd : mapGet w.clientData c = some u)
    (hf : svc.findAllByRoom r u = Except.error e) :
    u ∈ (mapGet (handleJoinRoom svc w c r).1.roomMembers r).getD [] ∧
    (handleJoinRoom svc w c r).2.1 = [] ∧
    (handleJoinRoom svc w c r).2.2 = HResult.thrown e := by
  simp [handleJoinRoom, clientJoin, hd, hf, mapGet_mapSet_self,
    mem_setAdd_self]

/-- C10 (witness): concrete run with a failing persistence collaborator. -/
theorem C10_witness :
    "u" ∈ (mapGet (handleJoinRoom svcFail C10w "c1" "R").1.roomMembers
      "R").getD [] ∧
    (handleJoinRoom svcFail C10w "c1" "R").2.1 = [] ∧
    (handleJoinRoom svcFail C10w "c1" "R").2.2 = HResult.thrown "db down" :=
  C10_join_mutation_survives_fetch_failure svcFail C10w "c1" "R" "u"
    "db down" (by decide) rfl

/-- C3: the claim is false on the code. A persistence failure while
`handleJoinRoom` fetches the room history is not caught inside the handler
and does not become a structured failure result: the error escapes. -/
theorem C3_counterexample :
    (handleJoinRoom svcFail C3w "c1" "R").2.2 = HResult.thrown "db down" := by
  decide

/-- C3 (amended): the handlers wrapped in try/catch — sendMessage,
updateMessage, deleteMessage, getRoomMembers — never let an error escape and
convert persistence failures into a failure ack with no emission; joinRoom
has no local catch, so a history-fetch failure escapes the handler. -/
theorem C3_catch_policy (svc : MessageService) (w : World) (c : ConnId)
    (dto : CreateMessageDto) (id content mid rid : String) :
    (∀ s, (handleSendMessage svc w c dto).2.2 ≠ HResult.thrown s) ∧
    (∀ s, (handleUpdateMessage svc w c id content).2.2 ≠ HResult.thrown s) ∧
    (∀ s, (handleDeleteMessage svc w c mid).2.2 ≠ HResult.thrown s) ∧
    (∀ s, (handleGetRoomMembers w c rid).2.2 ≠ HResult.thrown s) ∧
    (∀ u e, mapGet w.clientData c = some u →
      svc.create u dto = Except.error e →
      (handleSendMessage svc w c dto).2.1 = [] ∧
      (handleSendMessage svc w c dto).2.2 = HResult.failure e) ∧
    (∀ u e, mapGet w.clientData c = some u →
      svc.findAllByRoom rid u = Except.error e →
      (handleJoinRoom svc w c rid).2.1 = [] ∧
      (handleJoinRoom svc w c rid).2.2 = HResult.thrown e) := by
  refine ⟨?_, ?_, ?_, ?_, ?_, ?_⟩
  · intro s
    cases hM : mapGet w.clientData c with
    | none => simp [handleSendMessage, hM]
    | some u =>
      cases hC : svc.create u dto <;> simp [handleSendMessage, hM, hC]
  · intro s
    cases hM : mapGet w.clientData c with
    | none => simp [handleUpdateMessage, hM]
    | some u =>
      cases hC : svc.update id u content <;>
        simp [handleUpdateMessage, hM, hC]
  · intro s
    cases hM : mapGet w.clientData c with
    | none => simp [handleDeleteMessage, hM]
    | some u =>
      cases hC : svc.findOne mid u with
      | error e => simp [handleDeleteMessage, hM, hC]
      | ok m =>
        cases hR : svc.remove mid u <;>
          simp [handleDeleteMessage, hM, hC, hR]
  · intro s
    simp [handleGetRoomMembers]
  · intro u e hM hC
    simp [handleSendMessage, hM, hC]
  · intro u e hM hC
    simp [handleJoinRoom, clientJoin, hM, hC]

/-- C3 (witness): a failing `sendMessage` yields a failure ack and no
broadcast. -/
theorem C3_witness :
    (handleSendMessage svcFail C3w "c1" ⟨"R", "hi"⟩).2.1 = [] ∧
    (handleSendMessage svcFail C3w "c1" ⟨"R", "hi"⟩).2.2 =
      HResult.failure "db down" :=
  (C3_catch_policy svcFail C3w "c1" ⟨"R", "hi"⟩ "i" "c" "m" "R").2.2.2.2.1
    "u" "db down" (by decide) rfl

/-- C4: the claim is false on the code. Connection `c1` has joined no room at
all (its channel set is empty), yet `sendMessage` succeeds and emits a
`newMessage` broadcast: the gateway performs no Joined check. -/
theorem C4_counterexample :
    connChannels C4w "c1" = [] ∧
    (handleSendMessage svcList C4w "c1" ⟨"R", "hi"⟩).2.1 =
      [Emit.toChannel (Channel.room "R") "newMessage"
        (Payload.msg ⟨"m1", "R", "u", "hi"⟩)] ∧
    (handleSendMessage svcList C4w "c1" ⟨"R", "hi"⟩).2.2 =
      HResult.success (some ⟨"m1", "R", "u", "hi"⟩) none := by decide

/-- C4 (amended): `sendMessage` does not require the sender to be joined to
the target room — the outcome depends only on the persistence call, for every
channel subscription state: on persistence failure a failure ack to the
sender only and zero broadcasts; on success exactly one `newMessage`
broadcast with the full message to the channel of the room, with no state
change. -/
theorem C4_send_no_join_check (svc : MessageService) (w : World) (c : ConnId)
    (u : UserId) (dto : CreateMessageDto)
    (hd : mapGet w.clientData c = some u) :
    (∀ e, svc.create u dto = Except.error e →
      (handleSendMessage svc w c dto).2.1 = [] ∧
      (handleSendMessage svc w c dto).2.2 = HResult.failure e) ∧
    (∀ m, svc.create u dto = Except.ok m →
      (handleSendMessage svc w c dto).1 = w ∧
      (handleSendMessage svc w c dto).2.1 =
        [Emit.toChannel (Channel.room dto.roomId) "newMessage"
          (Payload.msg m)] ∧
      (handleSendMessage svc w c dto).2.2 =
        HResult.success (some m) none) := by
  constructor
  · intro e hC
    simp [handleSendMessage, hd, hC]
  · intro m hC
    simp [handleSendMessage, hd, hC]

/-- C4 (witness): concrete run of the amended theorem on a connection with no
joins. -/
theorem C4_witness :
    (handleSendMessage svcList C4w "c1" ⟨"R", "hi"⟩).1 = C4w ∧
    (handleSendMessage svcList C4w "c1" ⟨"R", "hi"⟩).2.1 =
      [Emit.toChannel (Channel.room "R") "newMessage"
        (Payload.msg ⟨"m1", "R", "u", "hi"⟩)] ∧
    (handleSendMessage svcList C4w "c1" ⟨"R", "hi"⟩).2.2 =
      HResult.success (some ⟨"m1", "R", "u", "hi"⟩) none :=
  (C4_send_no_join_check svcList C4w "c1" "u" ⟨"R", "hi"⟩ (by decide)).2
    ⟨"m1", "R", "u", "hi"⟩ rfl

/-- C5: the claim is false on the code. Rejoining room `R` on the same
connection leaves the gateway state unchanged, but it is not free of
additional effect: the handler re-fetches the history and re-broadcasts
`userJoined` (and `roomMembers`) to the whole room again. -/
theorem C5_counterexample :
    (handleJoinRoom svcList C5s1 "c1" "R").1 = C5s1 ∧
    Emit.toChannel (Channel.room "R") "userJoined"
      (Payload.userRoom "u" "R") ∈
      (handleJoinRoom svcList C5s1 "c1" "R").2.1 := by decide

/-- C5 (amended): `joinRoom` is idempotent on the state per (room,
connection) — the member set addition is guarded on absence, so multiple
connections of one user collapse to a single membership entry, and the full
current member set is what the announcement carries — but rejoining re-emits
`messageHistory` to the client and `roomMembers`/`userJoined` to the room. -/
theorem C5_rejoin_state_idempotent (svc : MessageService) (w : World)
    (c : ConnId) (u : UserId) (r : RoomId) (msgs : List Message)
    (hd : mapGet w.clientData c = some u)
    (hch : Channel.room r ∈ connChannels w c)
    (hm : u ∈ (mapGet w.roomMembers r).getD [])
    (hs : svc.findAllByRoom r u = Except.ok msgs) :
    (handleJoinRoom svc w c r).1 = w ∧
    (handleJoinRoom svc w c r).2.1 =
      [ Emit.toClient c "messageHistory" (Payload.history msgs),
        Emit.toChannel (Channel.room r) "roomMembers"
          (Payload.members ((mapGet w.roomMembers r).getD [])),
        Emit.toChannel (Channel.room r) "userJoined"
          (Payload.userRoom u r) ] := by
  cases hcs : mapGet w.channels c with
  | none => simp [connChannels, hcs] at hch
  | some chs =>
    cases hms : mapGet w.roomMembers r with
    | none => simp [hms] at hm
    | some s =>
      have hch2 : Channel.room r ∈ chs := by
        simpa [connChannels, hcs] using hch
      have hu : u ∈ s := by simpa [hms] using hm
      have h1 : clientJoin w c (Channel.room r) = w := by
        unfold clientJoin connChannels
        rw [hcs, Option.getD_some, setAdd_of_mem hch2,
          mapSet_eq_self _ _ _ hcs]
      have h2 : mapSet w.roomMembers r (setAdd s u) = w.roomMembers := by
        rw [setAdd_of_mem hu, mapSet_eq_self _ _ _ hms]
      constructor
      · simp [handleJoinRoom, h1, hd, mapHas, hms, h2, hs]
      · simp [handleJoinRoom, h1, hd, mapHas, hms, h2, hs]

/-- C5 (witness): concrete rejoin of room `R` on the same connection. -/
theorem C5_witness :
    (handleJoinRoom svcList C5s1 "c1" "R").1 = C5s1 ∧
    (handleJoinRoom svcList C5s1 "c1" "R").2.1 =
      [ Emit.toClient "c1" "messageHistory" (Payload.history []),
        Emit.toChannel (Channel.room "R") "roomMembers"
          (Payload.members ((mapGet C5s1.roomMembers "R").getD [])),
        Emit.toChannel (Channel.room "R") "userJoined"
          (Payload.userRoom "u" "R") ] :=
  C5_rejoin_state_idempotent svcList C5s1 "c1" "u" "R" [] (by decide)
    (by decide) (by decide) rfl

/-- C6: the claim is false on the code. On a successful join the member
snapshot is broadcast to the whole room channel (not delivered to the joining
connection only), and the `roomMembers` broadcast is emitted before
`userJoined`, not after it. -/
theorem C6_counterexample :
    C6trace =
      [ Emit.toClient "c1" "messageHistory" (Payload.history []),
        Emit.toChannel (Channel.room "R") "roomMembers"
          (Payload.members ["u"]),
        Emit.toChannel (Channel.room "R") "userJoined"
          (Payload.userRoom "u" "R") ] ∧
    C6trace.findIdx isRoomMembersBroadcast <
      C6trace.findIdx isUserJoinedBroadcast := by decide

/-- C6 (amended): every successful join emits, in this order:
`messageHistory` to the joining connection only, then the refreshed
`roomMembers` snapshot broadcast to the channel of the room, then `userJoined`
broadcast to the same channel — so receivers observe `roomMembers` before
`userJoined`, and only the history is client-private. -/
theorem C6_join_emission_order (svc : MessageService) (w : World) (c : ConnId)
    (u : UserId) (r : RoomId) (msgs : List Message)
    (hd : mapGet w.clientData c = some u)
    (hs : svc.findAllByRoom r u = Except.ok msgs) :
    (handleJoinRoom svc w c r).2.1 =
      [ Emit.toClient c "messageHistory" (Payload.history msgs),
        Emit.toChannel (Channel.room r) "roomMembers"
          (Payload.members
            ((mapGet (handleJoinRoom svc w c r).1.roomMembers r).getD [])),
        Emit.toChannel (Channel.room r) "userJoined"
          (Payload.userRoom u r) ] := by
  by_cases hH : mapHas w.roomMembers r <;>
    simp [handleJoinRoom, clientJoin, hd, hs, hH, mapGet_mapSet_self]

/-- C6 (witness): concrete first join of an empty room. -/
theorem C6_witness :
    (handleJoinRoom svcList C6w "c1" "R").2.1 =
      [ Emit.toClient "c1" "messageHistory" (Payload.history []),
        Emit.toChannel (Channel.room "R") "roomMembers"
          (Payload.members
            ((mapGet (handleJoinRoom svcList C6w "c1" "R").1.roomMembers
              "R").getD [])),
        Emit.toChannel (Channel.room "R") "userJoined"
          (Payload.userRoom "u" "R") ] :=
  C6_join_emission_order svcList C6w "c1" "u" "R" [] (by decide) rfl

/-- Sockets cannot receive on a channel they were just removed from: after
writing back the channel set with the channel deleted, the socket is not
among the recipients of the channel (channel keys unique). -/
theorem not_mem_recipients_mapSet_delete (chl : List (ConnId × List Channel))
    (c : ConnId) (cur : List Channel) (ch : Channel)
    (hk : (chl.map Prod.fst).Nodup) :
    c ∉ ((mapSet chl c (setDelete cur ch)).filter
      (fun p => ch ∈ p.2)).map Prod.fst := by
  intro hmem
  rw [List.mem_map] at hmem
  obtain ⟨p, hpf, hpc⟩ := hmem
  rw [List.mem_filter] at hpf
  obtain ⟨hpm, hpch⟩ := hpf
  rcases mem_mapSet _ _ _ _ hk hpm with h1 | h2
  · exact not_mem_setDelete_self cur ch (by
      have := of_decide_eq_true hpch
      rwa [h1] at this)
  · exact h2.2 hpc

/-- C7: the claim is false on the code. Users `u1` (socket `c1`) and `u2`
(socket `c2`) are both joined to room `R`; `c1` leaves: the broadcasts go to
`c2` only, because the socket leaves the channel before they are emitted —
the leaver does not receive its own `userLeft` or member list. -/
theorem C7_counterexample :
    (handleLeaveRoom C7w "c1" "R").2.1 =
      [ Emit.toChannel (Channel.room "R") "roomMembers"
          (Payload.members ["u2"]),
        Emit.toChannel (Channel.room "R") "userLeft"
          (Payload.userRoom "u1" "R") ] ∧
    recipientsOf (handleLeaveRoom C7w "c1" "R").1 (Channel.room "R") =
      ["c2"] ∧
    "c1" ∉ recipientsOf (handleLeaveRoom C7w "c1" "R").1
      (Channel.room "R") := by decide

/-- C7 (amended): `leaveRoom` broadcasts `userLeft` and the refreshed
`roomMembers` to the remaining group members only: every emission of the
handler targets the channel of the room, and the leaving connection is no longer
subscribed to that channel when they are emitted, so the leaver receives
neither. -/
theorem C7_leaver_not_a_recipient (w : World) (c : ConnId) (r : RoomId)
    (u : UserId) (hd : mapGet w.clientData c = some u)
    (hk : (w.channels.map Prod.fst).Nodup) :
    c ∉ recipientsOf (handleLeaveRoom w c r).1 (Channel.room r) ∧
    ∀ e ∈ (handleLeaveRoom w c r).2.1, ∃ ev p,
      e = Emit.toChannel (Channel.room r) ev p := by
  constructor
  · have hres : (handleLeaveRoom w c r).1.channels =
        mapSet w.channels c
          (setDelete (connChannels w c) (Channel.room r)) := by
      by_cases hH : mapHas w.roomMembers r <;>
        simp [handleLeaveRoom, clientLeave, hd, hH]
    unfold recipientsOf
    rw [hres]
    exact not_mem_recipients_mapSet_delete w.channels c _ _ hk
  · intro e he
    by_cases hH : mapHas w.roomMembers r
    · simp [handleLeaveRoom, clientLeave, hd, hH] at he
      rcases he with h | h
      · exact ⟨_, _, h⟩
      · exact ⟨_, _, h⟩
    · simp [handleLeaveRoom, clientLeave, hd, hH] at he
      exact ⟨_, _, he⟩

/-- C7 (witness): concrete leave where both sockets had joined the room. -/
theorem C7_witness :
    "c1" ∉ recipientsOf (handleLeaveRoom C7w "c1" "R").1
      (Channel.room "R") :=
  (C7_leaver_not_a_recipient C7w "c1" "R" "u1" (by decide) (by decide)).1

/-- Trace filtering: the empty trace has no emissions for a room. -/
theorem toRoomEmits_nil (r : RoomId) : toRoomEmits [] r = [] := rfl

/-- Trace filtering keeps a broadcast addressed to the room itself. -/
theorem toRoomEmits_cons_room_self (r : RoomId) (ev : String) (p : Payload)
    (tr : List Emit) :
    toRoomEmits (Emit.toChannel (Channel.room r) ev p :: tr) r =
      Emit.toChannel (Channel.room r) ev p :: toRoomEmits tr r := by
  simp [toRoomEmits, isToRoom, List.filter_cons]

/-- Trace filtering drops a broadcast addressed to a different room. -/
theorem toRoomEmits_cons_room_ne (r r' : RoomId) (ev : String) (p : Payload)
    (tr : List Emit) (h : r' ≠ r) :
    toRoomEmits (Emit.toChannel (Channel.room r') ev p :: tr) r =
      toRoomEmits tr r := by
  simp [toRoomEmits, isToRoom, List.filter_cons, h]

/-- Disconnect cleanup, projected on one room: the emissions addressed to room
`r` are exactly one `roomMembers` (the member set after the deletion) followed
by one `userLeft`, when the user was in the member set of `r`, and none
otherwise. -/
theorem disconnectCleanup_toRoomEmits (rooms : List (RoomId × List UserId))
    (u : UserId) (r : RoomId) (hk : (rooms.map Prod.fst).Nodup) :
    toRoomEmits (disconnectCleanup rooms u).2 r =
      (if u ∈ (mapGet rooms r).getD [] then
        [ Emit.toChannel (Channel.room r) "roomMembers"
            (Payload.members (setDelete ((mapGet rooms r).getD []) u)),
          Emit.toChannel (Channel.room r) "userLeft"
            (Payload.userRoom u r) ]
      else []) := by
  induction rooms with
  | nil => simp [disconnectCleanup, toRoomEmits, mapGet]
  | cons p rest ih =>
    obtain ⟨r', members⟩ := p
    rw [List.map_cons, List.nodup_cons] at hk
    by_cases hu : u ∈ members
    · by_cases hr : r' = r
      · subst hr
        have hnone : mapGet rest r' = none :=
          mapGet_eq_none_of_not_mem rest r' hk.1
        simp [disconnectCleanup, hu, mapGet, toRoomEmits_cons_room_self,
          ih hk.2, hnone]
      · simp [disconnectCleanup, hu, mapGet, hr,
          toRoomEmits_cons_room_ne _ _ _ _ _ hr, ih hk.2]
    · by_cases hr : r' = r
      · subst hr
        have hnone : mapGet rest r' = none :=
          mapGet_eq_none_of_not_mem rest r' hk.1
        simp [disconnectCleanup, hu, mapGet, ih hk.2, hnone]
      · simp [disconnectCleanup, hu, mapGet, hr, ih hk.2]

/-- C2: the claim is false on the code. User `u` joined room `A` on connection
`c1` and room `B` on connection `c2` only; the joined rooms of `c1` are exactly
`[A]`, yet disconnecting `c1` also emits a `userLeft` for room `B`: cleanup
iterates over rooms whose member set contains the user id, not over the rooms
this connection joined. -/
theorem C2_counterexample :
    connChannels C2state "c1" = [Channel.room "A"] ∧
    Emit.toChannel (Channel.room "B") "userLeft"
      (Payload.userRoom "u" "B") ∈ (handleDisconnect C2state "c1").2 := by
  decide

/-- C2 (amended): disconnecting a connection emits, per room whose member set
contains the id of the disconnecting user (which coincides with the rooms this
connection joined only while the user holds no other connection), exactly one
`roomMembers` broadcast followed by one `userLeft` broadcast to the channel of
that room, and nothing for any other room. -/
theorem C2_disconnect_per_member_room (w : World) (c : ConnId) (u : UserId)
    (r : RoomId) (hd : mapGet w.clientData c = some u)
    (hk : (w.roomMembers.map Prod.fst).Nodup) :
    toRoomEmits (handleDisconnect w c).2 r =
      (if u ∈ (mapGet w.roomMembers r).getD [] then
        [ Emit.toChannel (Channel.room r) "roomMembers"
            (Payload.members (setDelete ((mapGet w.roomMembers r).getD []) u)),
          Emit.toChannel (Channel.room r) "userLeft"
            (Payload.userRoom u r) ]
      else []) := by
  simp only [handleDisconnect, hd]
  exact disconnectCleanup_toRoomEmits w.roomMembers u r hk

/-- C2 (witness): concrete disconnect of `c1`, projected on room `B` — a room
`c1` never joined but whose member set contains `u`. -/
theorem C2_witness :
    toRoomEmits (handleDisconnect C2state "c1").2 "B" =
      (if "u" ∈ (mapGet C2state.roomMembers "B").getD [] then
        [ Emit.toChannel (Channel.room "B") "roomMembers"
            (Payload.members
              (setDelete ((mapGet C2state.roomMembers "B").getD []) "u")),
          Emit.toChannel (Channel.room "B") "userLeft"
            (Payload.userRoom "u" "B") ]
      else []) :=
  C2_disconnect_per_member_room C2state "c1" "u" "B" (by decide) (by decide)

/-- C8: a connection whose handshake presents no credential or an invalid
credential is disconnected and never admitted: it is connected after the
handshake exactly when a non-empty token verified successfully; on every
rejection path the socket keeps no attached identity, and on success the
identity is attached and the per-user channel joined. -/
theorem C8_unauthenticated_never_admitted
    (verify : String → Except String UserId) (w : World) (c : ConnId)
    (token : Option String) :
    ((handleConnection verify w c token).2 = true ↔
      ∃ t u, token = some t ∧ t ≠ "" ∧ verify t = Except.ok u) ∧
    ((handleConnection verify w c token).2 = false →
      mapGet (handleConnection verify w c token).1.clientData c = none) ∧
    (∀ t u, token = some t → t ≠ "" → verify t = Except.ok u →
      mapGet (handleConnection verify w c token).1.clientData c = some u ∧
      Channel.user u ∈ connChannels (handleConnection verify w c token).1
        c) := by
  refine ⟨?_, ?_, ?_⟩
  · cases token with
    | none => simp [handleConnection]
    | some t =>
      by_cases ht : t = ""
      · simp [handleConnection, ht]
      · cases hv : verify t with
        | error e =>
          simp only [handleConnection, ht, if_neg ht, hv]
          constructor
          · intro h
            exact absurd h (by simp)
          · rintro ⟨t', u', ht', _, hv'⟩
            rw [Option.some_inj] at ht'
            subst ht'
            rw [hv] at hv'
            exact absurd hv' (by simp)
        | ok u0 =>
          simp only [handleConnection, ht, if_neg ht, hv]
          exact ⟨fun _ => ⟨t, u0, rfl, ht, hv⟩, fun _ => rfl⟩
  · intro hF
    cases token with
    | none =>
      exact mapGet_filter_self w.clientData c
    | some t =>
      by_cases ht : t = ""
      · have hcd : (handleConnection verify w c (some t)).1 =
            disconnectSocket w c := by simp [handleConnection, ht]
        rw [hcd]
        exact mapGet_filter_self w.clientData c
      · cases hv : verify t with
        | error e =>
          have hcd : (handleConnection verify w c (some t)).1 =
              disconnectSocket w c := by simp [handleConnection, ht, hv]
          rw [hcd]
          exact mapGet_filter_self w.clientData c
        | ok u0 => simp [handleConnection, ht, hv] at hF
  · intro t u htok ht hv
    subst htok
    simp [handleConnection, ht, hv, clientJoin, connChannels,
      mapGet_mapSet_self, mem_setAdd_self]

/-- C8 (witness): concrete handshake with the valid token. -/
theorem C8_witness :
    mapGet (handleConnection verifyDemo C8w "c1" (some "tok")).1.clientData
      "c1" = some "u" ∧
    Channel.user "u" ∈
      connChannels (handleConnection verifyDemo C8w "c1" (some "tok")).1
        "c1" :=
  (C8_unauthenticated_never_admitted verifyDemo C8w "c1" (some "tok")).2.2
    "tok" "u" rfl (by decide) rfl

end Slackr
